import Mathlib

/-!
Shallow embedding of the Estrela do Saber backend core: the multi-agent
pipeline orchestrator (`src/backend/src/agents/orchestrator.py`), the
question generator (`question_agent.py`) and the report aggregation engine
(`report_agent.py`).

External generative collaborators (LLM question/feedback generation, speech
synthesis) are modelled as `Except Unit _` valued inputs: `.ok` carries what
the collaborator returned, `.error` stands for a raised exception.  The
SQLite store is modelled as an explicit `DB` value threaded through the
stages; `session.commit()` corresponds to returning the updated `DB`.
Python string normalization (`str.upper`, `str.strip`) is embedded over the
underlying character list.  Timestamps are epoch seconds (`Int`); the float
percentages of the report engine are embedded as rationals with Python's
banker's rounding (`round(x, 1)`).
-/

/-- Python `str.upper` (ASCII case mapping, as `Char.toUpper`). -/
def pyUpper (s : String) : String :=
  String.mk (s.data.map Char.toUpper)

/-- Python `str.strip()` on a character list: drop whitespace on both ends. -/
def stripChars (l : List Char) : List Char :=
  ((l.dropWhile Char.isWhitespace).reverse.dropWhile Char.isWhitespace).reverse

/-- Python `str.strip()`. -/
def pyStrip (s : String) : String :=
  String.mk (stripChars s.data)

/-- `user_answer.upper().strip()` — the normalization `process_answer` applies
to the submitted answer (orchestrator.py line 118). -/
def normalizeAnswer (s : String) : String :=
  pyStrip (pyUpper s)

/-! ## Data model (`db/models.py`) -/

/-- `Child` row: name, grade (`ano`), guardian e-mail. -/
structure Child where
  nome : String
  ano : Nat
  email_responsavel : String
deriving Repr, DecidableEq

/-- `Question` row. -/
structure Question where
  id : Nat
  question : String
  options : List String
  answer : String
  ano_ideal : Nat
  audio_path : Option String
deriving Repr, DecidableEq

/-- `Response` row (an Answer record). -/
structure Response where
  id : Nat
  question_id : Nat
  child_email : String
  selected : String
  correct : Bool
  timestamp : Int
  feedback_text : String
  audio_path : Option String
  audio_base64 : Option String
deriving Repr, DecidableEq

/-- The SQLite store: the three tables plus autoincrement counters. -/
structure DB where
  children : List Child
  questions : List Question
  responses : List Response
  nextQuestionId : Nat
  nextResponseId : Nat
deriving Repr, DecidableEq

/-- `select(Child).where(Child.email_responsavel == email).first()`. -/
def findChild (db : DB) (email : String) : Option Child :=
  db.children.find? (fun c => c.email_responsavel == email)

/-- `session.get(Question, qid)`. -/
def findQuestion (db : DB) (qid : Nat) : Option Question :=
  db.questions.find? (fun q => q.id == qid)

/-! ## Question agent (`question_agent.py`) -/

/-- The content fields of a question payload `{question, options, answer}`.
A successful LLM call that parses as JSON with all three keys yields one of
these; any exception along the way (API failure, JSON parse error, missing
key) is the `.error` case of `Except Unit QuestionContent`. -/
structure QuestionContent where
  question : String
  options : List String
  answer : String
deriving Repr, DecidableEq

/-- The formatted question dict returned by the agent:
`{"id", "disponivel", "question", "options", "answer"}`. -/
structure QuestionData where
  id : Nat
  disponivel : Bool
  question : String
  options : List String
  answer : String
deriving Repr, DecidableEq

/-- The hard-coded `fallback_questions` table with its
`fallback_questions.get(ano, fallback_questions[2])` lookup. -/
def fallbackBase (ano : Nat) : QuestionContent :=
  if ano = 1 then
    { question := "Qual é a primeira letra da palavra 'CASA'?"
      options := ["C", "A", "S", "H"], answer := "C" }
  else if ano = 2 then
    { question := "Quantas sílabas tem a palavra 'GATO'?"
      options := ["1", "2", "3", "4"], answer := "2" }
  else if ano = 3 then
    { question := "Qual palavra rima com 'FLOR'?"
      options := ["Amor", "Casa", "Livro", "Carro"], answer := "Amor" }
  else
    { question := "Quantas sílabas tem a palavra 'GATO'?"
      options := ["1", "2", "3", "4"], answer := "2" }

/-- `QuestionGeneratorAgent._get_fallback_question(ano)`; `counter` is the
agent's `_question_counter` (used as the id, not incremented here). -/
def getFallbackQuestion (counter : Nat) (ano : Nat) : QuestionData :=
  let base := fallbackBase ano
  { id := counter, disponivel := true
    question := base.question, options := base.options, answer := base.answer }

/-- `QuestionGeneratorAgent.generate_question(ano)`.  `llm` is the outcome of
the LLM invocation + JSON parse + key extraction; on success the content is
repackaged unchanged and the counter is incremented, on any exception the
fallback question is returned (counter unchanged).  Returns the question
payload and the new counter. -/
def generate_question (counter : Nat) (llm : Except Unit QuestionContent)
    (ano : Nat) : QuestionData × Nat :=
  match llm with
  | .ok qc =>
      ({ id := counter, disponivel := true
         question := qc.question, options := qc.options, answer := qc.answer },
       counter + 1)
  | .error _ => (getFallbackQuestion counter ano, counter)

/-! ## Pipeline orchestrator (`orchestrator.py`) — answer submission -/

/-- The `evaluation_result` dict `{correct, expected, selected}`. -/
structure EvalResult where
  correct : Bool
  expected : String
  selected : String
deriving Repr, DecidableEq

/-- `_evaluate_answer_node`: `is_correct = user_answer == question_data.get("answer","").upper()`
where `user_answer` is the already-normalized `state["user_response"]`. -/
def evaluate_answer (questionAnswer : String) (userResponse : String) : EvalResult :=
  { correct := userResponse == pyUpper questionAnswer
    expected := questionAnswer
    selected := userResponse }

/-- The `question_data` dict built by `_fetch_question_node`. -/
structure QuestionPayload where
  id : Nat
  question : String
  options : List String
  answer : String
deriving Repr, DecidableEq

/-- `_fetch_question_node`: load the question by id; if missing, use the
grade fallback content but keep the requested id. -/
def fetch_question (db : DB) (ano : Nat) (qid : Nat) : QuestionPayload :=
  match findQuestion db qid with
  | some q => { id := q.id, question := q.question, options := q.options, answer := q.answer }
  | none =>
      let fb := fallbackBase ano
      { id := qid, question := fb.question, options := fb.options, answer := fb.answer }

/-- `_save_response_node`: insert the `Response` row with the evaluation
result and an *empty* feedback placeholder, commit, capture the new id.
Returns the committed store and the row's id. -/
def save_response (db : DB) (now : Int) (qid : Nat) (childEmail : String)
    (ev : EvalResult) : DB × Nat :=
  let rid := db.nextResponseId
  let row : Response :=
    { id := rid, question_id := qid, child_email := childEmail
      selected := ev.selected, correct := ev.correct, timestamp := now
      feedback_text := "", audio_path := none, audio_base64 := none }
  ({ db with responses := db.responses ++ [row], nextResponseId := rid + 1 }, rid)

/-- The `avaliacao` string `_generate_feedback_node` hands to the feedback
collaborator. -/
def buildAvaliacao (childName : String) (ano : Nat) (ev : EvalResult) : String :=
  "A criança " ++ childName ++ " " ++ (if ev.correct then "acertou" else "errou")
    ++ " a questão do " ++ toString ano ++ "º ano. Resposta esperada: "
    ++ ev.expected ++ ", Resposta dada: " ++ ev.selected

/-- `_generate_audio_node`: synthesize audio for the feedback text (no
exception handling — a synthesis failure propagates), then reopen a session
and patch the `Response` row with feedback text, audio path and base64
payload.  `tts feedbackText` is `.ok b64` when synthesis + base64 encoding
succeeded, `.error` when the TTS call raised. -/
def generate_audio_node (db : DB) (tts : String → Except Unit String)
    (feedbackText : String) (rid : Nat) : Except Unit (DB × String) :=
  match tts feedbackText with
  | .error e => .error e
  | .ok b64 =>
      let path := "audios/feedback_" ++ toString rid ++ ".mp3"
      let db' := { db with
        responses := db.responses.map (fun r =>
          if r.id = rid then
            { r with feedback_text := feedbackText
                     audio_path := some path, audio_base64 := some b64 }
          else r) }
      .ok (db', b64)

/-- The dict `process_answer` returns: `{correta, feedback, audio, saved}`. -/
structure AnswerOutcome where
  correta : Bool
  feedback : String
  audio : String
  saved : Bool
deriving Repr, DecidableEq

/-- `MultiAgentOrchestrator.process_answer(question_id, user_answer, child_email)`.
`fb` is the feedback collaborator (`generate_feedback`, may raise), `tts` the
speech collaborator.  The result pairs the operation outcome (`.error` when
an exception escapes `process_answer`) with the store as of the failure
point — earlier per-stage commits are never rolled back. -/
def process_answer (db : DB) (fb : String → Except Unit String)
    (tts : String → Except Unit String) (now : Int)
    (questionId : Nat) (userAnswer : String) (childEmail : String) :
    Except Unit AnswerOutcome × DB :=
  match findChild db childEmail with
  | none => (.error (), db)
  | some child =>
      let userResponse := normalizeAnswer userAnswer
      let qd := fetch_question db child.ano questionId
      let ev := evaluate_answer qd.answer userResponse
      let (db1, rid) := save_response db now questionId childEmail ev
      match fb (buildAvaliacao child.nome child.ano ev) with
      | .error e => (.error e, db1)
      | .ok feedbackText =>
          match generate_audio_node db1 tts feedbackText rid with
          | .error e => (.error e, db1)
          | .ok (db2, b64) =>
              (.ok { correta := ev.correct, feedback := feedbackText
                     audio := b64, saved := true }, db2)

/-! ## Pipeline orchestrator — question creation -/

/-- The payload `process_new_question` returns (`question_data` after
`_persist_question_node` filled in `id` and `audio_path`). -/
structure NewQuestionResult where
  id : Nat
  disponivel : Bool
  question : String
  options : List String
  answer : String
  audio_path : String
deriving Repr, DecidableEq

/-- `_generate_question_audio`: returns the audio path on success and `""`
on any synthesis failure (the exception is caught and logged). -/
def generate_question_audio (synth : String → Except Unit Unit)
    (questionText : String) (qid : Nat) : String :=
  match synth questionText with
  | .ok _ => "audios/questao_" ++ toString qid ++ ".mp3"
  | .error _ => ""

/-- `_persist_question_node`: insert the `Question` row, flush to obtain its
id, synthesize the question audio (failure yields `""`), attach the audio
path to the same row, commit once. -/
def persist_question (db : DB) (synth : String → Except Unit Unit)
    (qd : QuestionData) (ano : Nat) : DB × Nat × String :=
  let qid := db.nextQuestionId
  let audioPath := generate_question_audio synth qd.question qid
  let row : Question :=
    { id := qid, question := qd.question, options := qd.options
      answer := qd.answer, ano_ideal := ano, audio_path := some audioPath }
  ({ db with questions := db.questions ++ [row], nextQuestionId := qid + 1 },
   qid, audioPath)

/-- `MultiAgentOrchestrator.process_new_question(ano, child_email)`.
`counter` is the question agent's counter; `ano = 0` models a falsy `ano`
argument (Python `ano or child_info["ano"]`). -/
def process_new_question (db : DB) (counter : Nat)
    (llm : Except Unit QuestionContent) (synth : String → Except Unit Unit)
    (ano : Nat) (childEmail : String) :
    Except Unit (NewQuestionResult × DB × Nat) :=
  match findChild db childEmail with
  | none => .error ()
  | some child =>
      let anoUsed := if ano = 0 then child.ano else ano
      let (gq, counter') := generate_question counter llm anoUsed
      let (db', qid, audioPath) := persist_question db synth gq anoUsed
      .ok ({ id := qid, disponivel := gq.disponivel, question := gq.question
             options := gq.options, answer := gq.answer, audio_path := audioPath },
           db', counter')

/-! ## Report aggregation engine (`report_agent.py`) -/

/-- Round `a / b` (with `b ≠ 0`) half-to-even to an integer — Python's
`round` tie-breaking on an exact quotient. -/
def roundHalfEvenDiv (a b : Nat) : Nat :=
  let q := a / b
  let r := a % b
  if 2 * r < b then q
  else if b < 2 * r then q + 1
  else if q % 2 = 0 then q else q + 1

/-- Python `round((correct / total) * 100, 1)`, encoded in *tenths of a
percent* so the value stays an exact natural number:
`accuracyTenths c t = 10 × round((c/t)*100, 1)`. -/
def accuracyTenths (correct total : Nat) : Nat :=
  roundHalfEvenDiv (1000 * correct) total

/-- `timedelta(weeks=2)` in seconds. -/
def twoWeeksSecs : Int := 14 * 86400

/-- The report's `performance_summary` block. -/
structure PerformanceSummary where
  total_activities : Nat
  correct_answers : Nat
  incorrect_answers : Nat
  accuracy_percentage : Nat
  recent_accuracy : Nat
deriving Repr, DecidableEq

/-- The report's `temporal_analysis` block. -/
structure TemporalAnalysis where
  total_recent_activities : Nat
  total_older_activities : Nat
  performance_trend : String
deriving Repr, DecidableEq

/-- The assembled report (the blocks the core computes; the weekday table is
omitted as no claim touches it). `improvement_trend` is the signal placed in
`performance_data` and handed to the insight collaborator. -/
structure FullReport where
  child_name : String
  child_grade : Nat
  performance_summary : PerformanceSummary
  temporal_analysis : TemporalAnalysis
  improvement_trend : Int
  pedagogical_insights : String
  recommendations : List String
deriving Repr, DecidableEq

/-- The three possible returns of `generate_report`: the `{"error": ...}`
dict, the minimal empty-history report, or the full report. -/
inductive ReportResult where
  | childNotFound : ReportResult
  | emptyHistory (child_name : String) (child_grade : Nat)
      (total_responses : Nat) (message : String) : ReportResult
  | report (r : FullReport) : ReportResult
deriving Repr, DecidableEq

/-- `_generate_recommendations`: fixed tier texts thresholded on overall
accuracy (`accuracy` in tenths of a percent, so the code's `>= 80` and
`>= 60` become `800 ≤` and `600 ≤`). -/
def generate_recommendations (accuracy : Nat) : List String :=
  if 800 ≤ accuracy then
    [ "Excelente desempenho! Continue estimulando com atividades diversificadas."
    , "Considere introduzir desafios um pouco mais avançados."
    , "Elogie o progresso e mantenha a motivação alta." ]
  else if 600 ≤ accuracy then
    [ "Desempenho satisfatório. Continue praticando regularmente."
    , "Foque em reforçar conceitos com mais dificuldade."
    , "Considere sessões de estudo mais frequentes e curtas." ]
  else
    [ "Recomenda-se atenção especial ao desenvolvimento da alfabetização."
    , "Considere atividades lúdicas complementares em casa."
    , "Pode ser útil conversar com o professor para alinhamento pedagógico." ]

/-- `ReportGeneratorAgent.generate_report(child_email, session)`.  `now` is
`datetime.utcnow()` at evaluation time; `insights` is the outcome of the
insight collaborator (its fallback text on error is summarized as a fixed
string — no claim depends on its content). -/
def generate_report (db : DB) (now : Int) (insights : Except Unit String)
    (childEmail : String) : ReportResult :=
  match findChild db childEmail with
  | none => .childNotFound
  | some child =>
      let responses := db.responses.filter (fun r => r.child_email == childEmail)
      if responses.isEmpty then
        .emptyHistory child.nome child.ano 0
          "Ainda não há atividades realizadas para gerar relatório."
      else
        let total := responses.length
        let correct := (responses.filter (fun r => r.correct)).length
        let accuracy := accuracyTenths correct total
        let twoWeeksAgo := now - twoWeeksSecs
        let recent := responses.filter (fun r => twoWeeksAgo ≤ r.timestamp)
        let older := responses.filter (fun r => r.timestamp < twoWeeksAgo)
        let recentAccuracy : Nat :=
          if recent.isEmpty then 0
          else
            let recentCorrect := (recent.filter (fun r => r.correct)).length
            accuracyTenths recentCorrect recent.length
        let improvementTrend : Int :=
          (recentAccuracy : Int) -
            (if 0 < older.length then (accuracy : Int) else (recentAccuracy : Int))
        let insightText :=
          match insights with
          | .ok s => s
          | .error _ => "Análise pedagógica: desenvolvimento adequado."
        .report
          { child_name := child.nome
            child_grade := child.ano
            performance_summary :=
              { total_activities := total
                correct_answers := correct
                incorrect_answers := total - correct
                accuracy_percentage := accuracy
                recent_accuracy := recentAccuracy }
            temporal_analysis :=
              { total_recent_activities := recent.length
                total_older_activities := older.length
                performance_trend :=
                  if accuracy < recentAccuracy then "improvement"
                  else if recentAccuracy == accuracy then "stable"
                  else "needs_attention" }
            improvement_trend := improvementTrend
            pedagogical_insights := insightText
            recommendations := generate_recommendations accuracy }

/-! ## Concrete fixtures used by counterexamples and witnesses -/

/-- A registered learner. -/
def exampleChild : Child :=
  { nome := "Ana", ano := 2, email_responsavel := "ana@x" }

/-- A stored question whose correct label is `"B"`. -/
def exampleQuestion : Question :=
  { id := 1, question := "Qual é a vogal?", options := ["A", "B", "C", "D"]
    answer := "B", ano_ideal := 2, audio_path := none }

/-- A store holding the learner and the question, no answers yet. -/
def exampleDB : DB :=
  { children := [exampleChild], questions := [exampleQuestion]
    responses := [], nextQuestionId := 2, nextResponseId := 1 }

/-- Every grade's hard-coded fallback content has exactly four distinct
option labels and its correct label among them. -/
lemma fallbackBase_wellformed (ano : Nat) :
    (fallbackBase ano).options.length = 4 ∧ (fallbackBase ano).options.Nodup ∧
    (fallbackBase ano).answer ∈ (fallbackBase ano).options := by
  unfold fallbackBase
  split_ifs <;> decide

/-! ## C2 -/

/-- C2, counterexample.  The question-generation collaborator returns
content that parses and has all required keys but only three options and a
correct label that is not among them; `generate_question` performs no
validation, so the question-creation workflow returns this malformed payload
unchanged instead of substituting the fallback (the grade-1 fallback options
would be `["C", "A", "S", "H"]`). -/
theorem c2_counterexample :
    ((process_new_question exampleDB 100
        (.ok { question := "Pergunta?", options := ["A", "B", "C"], answer := "Z" })
        (fun _ => .ok ()) 1 "ana@x").toOption.map
          (fun res => (res.1.options, res.1.answer)))
      = some (["A", "B", "C"], "Z")
    ∧ (["A", "B", "C"] : List String).length ≠ 4
    ∧ "Z" ∉ (["A", "B", "C"] : List String) := by decide

/-- C2, amended.  Fallback questions (used when the collaborator raises, its
output fails to parse, or a required key is missing) always have exactly four
distinct option labels with the correct label among them; but content that
parses with the required keys is passed through unvalidated — its options and
answer are returned exactly as the collaborator produced them, with no
`correctLabel ∈ options` check. -/
theorem c2_fallback_valid_generator_unvalidated (counter ano : Nat)
    (qc : QuestionContent) :
    ((getFallbackQuestion counter ano).options.length = 4 ∧
      (getFallbackQuestion counter ano).options.Nodup ∧
      (getFallbackQuestion counter ano).answer ∈ (getFallbackQuestion counter ano).options) ∧
    (generate_question counter (.ok qc) ano).1.options = qc.options ∧
    (generate_question counter (.ok qc) ano).1.answer = qc.answer ∧
    (generate_question counter (.error ()) ano).1 = getFallbackQuestion counter ano := by
  exact ⟨fallbackBase_wellformed ano, rfl, rfl, rfl⟩

/-! ## C3 -/

/-- C3, counterexample.  The submitted answer `"B"` equals the stored
correct label `" B"` after case/whitespace normalization, yet evaluation
reports `correct = false`: the code normalizes whitespace only on the
submitted side (`user_answer.upper().strip()` vs `answer.upper()`). -/
theorem c3_counterexample :
    normalizeAnswer "B" = normalizeAnswer " B" ∧
    (evaluate_answer " B" (normalizeAnswer "B")).correct = false ∧
    (evaluate_answer " B" (normalizeAnswer "B")).expected = " B" := by decide

/-- C3, amended.  Evaluation reports `correct = true` exactly when the
normalized submitted answer (uppercased, whitespace-stripped) is equal — by
exact string equality, not prefix or fuzzy matching — to the *uppercased*
stored correct label (the stored label is case-normalized but not
whitespace-stripped); the `expected` field is the raw stored label and
`selected` is the normalized submission. -/
theorem c3_evaluation_exact_equality (a u : String) :
    ((evaluate_answer a (normalizeAnswer u)).correct = true ↔
      normalizeAnswer u = pyUpper a) ∧
    (evaluate_answer a (normalizeAnswer u)).expected = a ∧
    (evaluate_answer a (normalizeAnswer u)).selected = normalizeAnswer u := by
  refine ⟨?_, rfl, rfl⟩
  simp [evaluate_answer]

/-! ## C7 -/

/-- C7.  When the question-generation collaborator throws, question creation
still completes: the agent returns the hard-coded fallback for the grade
(deterministic — it depends only on the grade and the agent counter), the
fallback's correct label is among its own options, and the orchestrator
workflow returns `.ok` with exactly the fallback content. -/
theorem c7_generator_throw_fallback (db : DB) (counter : Nat)
    (synth : String → Except Unit Unit) (ano : Nat) (email : String)
    (child : Child) (hc : findChild db email = some child) (hano : ano ≠ 0) :
    (generate_question counter (.error ()) ano).1 = getFallbackQuestion counter ano ∧
    (getFallbackQuestion counter ano).answer ∈ (getFallbackQuestion counter ano).options ∧
    ∃ res, process_new_question db counter (.error ()) synth ano email = .ok res ∧
      res.1.question = (fallbackBase ano).question ∧
      res.1.options = (fallbackBase ano).options ∧
      res.1.answer = (fallbackBase ano).answer := by
  refine ⟨rfl, (fallbackBase_wellformed ano).2.2, ?_⟩
  simp only [process_new_question, hc, if_neg hano, generate_question,
    getFallbackQuestion, persist_question]
  exact ⟨_, rfl, rfl, rfl, rfl⟩

/-- C7, witness: a concrete store where the learner exists; the collaborator
throws for grade 1 and the workflow returns the grade-1 fallback. -/
theorem c7_generator_throw_fallback_witness :
    findChild exampleDB "ana@x" = some exampleChild ∧ (1 : Nat) ≠ 0 ∧
    ((generate_question 100 (.error ()) 1).1 = getFallbackQuestion 100 1 ∧
      (getFallbackQuestion 100 1).answer ∈ (getFallbackQuestion 100 1).options ∧
      ∃ res, process_new_question exampleDB 100 (.error ()) (fun _ => .ok ()) 1 "ana@x"
          = .ok res ∧
        res.1.question = (fallbackBase 1).question ∧
        res.1.options = (fallbackBase 1).options ∧
        res.1.answer = (fallbackBase 1).answer) :=
  ⟨by decide, by decide,
    c7_generator_throw_fallback exampleDB 100 (fun _ => .ok ()) 1 "ana@x"
      exampleChild (by decide) (by decide)⟩

/-! ## C1 -/

/-- C1, counterexample.  With a stored learner and question, a working
feedback collaborator and a speech synthesizer that raises, answer
submission does NOT succeed with empty audio — `_generate_audio_node` has no
exception handling, so the failure propagates out of `process_answer`. -/
theorem c1_counterexample :
    (process_answer exampleDB (fun _ => .ok "Muito bem!") (fun _ => .error ())
        1000 1 "B" "ana@x").1 = .error () := by rfl

/-- C1, amended.  A speech-synthesis failure is tolerated only in question
creation: there the synthesis exception is caught and the workflow returns
the question with an empty audio reference.  In answer submission a failure
of the audio-synthesis stage propagates and the whole submission fails (no
result is returned to the caller). -/
theorem c1_audio_failure_split (db : DB) (counter : Nat)
    (llm : Except Unit QuestionContent) (fb : String → Except Unit String)
    (now : Int) (qid ano : Nat) (user email : String) (child : Child)
    (hc : findChild db email = some child) :
    (∃ res, process_new_question db counter llm (fun _ => .error ()) ano email
        = .ok res ∧ res.1.audio_path = "") ∧
    (process_answer db fb (fun _ => .error ()) now qid user email).1 = .error () := by
  constructor
  · simp only [process_new_question, hc, persist_question, generate_question_audio]
    exact ⟨_, rfl, rfl⟩
  · simp only [process_answer, hc]
    cases hfb : fb (buildAvaliacao child.nome child.ano
        (evaluate_answer (fetch_question db child.ano qid).answer
          (normalizeAnswer user))) with
    | error e => cases e; rfl
    | ok ft => simp [generate_audio_node]

/-- C1, witness: the amended behavior at a concrete store — creation
succeeds with empty audio path, submission fails — both with a raising
synthesizer. -/
theorem c1_audio_failure_split_witness :
    findChild exampleDB "ana@x" = some exampleChild ∧
    ((∃ res, process_new_question exampleDB 100 (.error ()) (fun _ => .error ())
        2 "ana@x" = .ok res ∧ res.1.audio_path = "") ∧
      (process_answer exampleDB (fun _ => .ok "Muito bem!") (fun _ => .error ())
        1000 1 "B" "ana@x").1 = .error ()) :=
  ⟨by decide,
    c1_audio_failure_split exampleDB 100 (.error ()) (fun _ => .ok "Muito bem!")
      1000 1 2 "B" "ana@x" exampleChild (by decide)⟩

/-! ## Shared pipeline lemmas -/

/-- Whatever the feedback and speech collaborators do, the store returned by
`process_answer` contains a row carrying the new identifier and the
evaluation-time fields of the answer that `_save_response_node` committed
(a later stage may fill in its feedback/audio fields, but never removes it
or alters the evaluation result). -/
lemma process_answer_keeps_saved_row (db : DB) (fb tts : String → Except Unit String)
    (now : Int) (qid : Nat) (user email : String) (child : Child)
    (hc : findChild db email = some child) :
    ∃ resp ∈ (process_answer db fb tts now qid user email).2.responses,
      resp.id = db.nextResponseId ∧ resp.question_id = qid ∧
      resp.child_email = email ∧ resp.selected = normalizeAnswer user ∧
      resp.correct = (evaluate_answer (fetch_question db child.ano qid).answer
        (normalizeAnswer user)).correct ∧
      resp.timestamp = now := by
  simp only [process_answer, hc]
  set ev := evaluate_answer (fetch_question db child.ano qid).answer
    (normalizeAnswer user) with hev
  set row : Response :=
    { id := db.nextResponseId, question_id := qid, child_email := email
      selected := ev.selected, correct := ev.correct, timestamp := now
      feedback_text := "", audio_path := none, audio_base64 := none } with hrow
  cases hfb : fb (buildAvaliacao child.nome child.ano ev) with
  | error e =>
      exact ⟨row, by simp [save_response], rfl, rfl, rfl, rfl, rfl, rfl⟩
  | ok ft =>
      cases htts : tts ft with
      | error e =>
          exact ⟨row, by simp [save_response, generate_audio_node, htts],
            rfl, rfl, rfl, rfl, rfl, rfl⟩
      | ok b64 =>
          refine ⟨{ row with
              feedback_text := ft
              audio_path := some ("audios/feedback_" ++ toString db.nextResponseId ++ ".mp3")
              audio_base64 := some b64 }, ?_, rfl, rfl, rfl, rfl, rfl, rfl⟩
          simp only [generate_audio_node, htts, save_response]
          refine List.mem_map.mpr ⟨row, by simp, ?_⟩
          simp

/-! ## C4 -/

/-- C4.  The Answer row — carrying the evaluation result and an empty
feedback placeholder — is committed by the save stage before the feedback
and audio stages run (the committed store after saving does not depend on
either collaborator), the row survives in the final store whatever those
collaborators do, and if a later stage fails the final store is exactly the
post-save store: nothing is rolled back or removed. -/
theorem c4_answer_committed_before_later_stages (db : DB)
    (fb tts : String → Except Unit String) (now : Int) (qid : Nat)
    (user email : String) (child : Child)
    (hc : findChild db email = some child) :
    (save_response db now qid email
        (evaluate_answer (fetch_question db child.ano qid).answer
          (normalizeAnswer user))).1.responses =
      db.responses ++
        [{ id := db.nextResponseId, question_id := qid, child_email := email
           selected := normalizeAnswer user
           correct := (evaluate_answer (fetch_question db child.ano qid).answer
             (normalizeAnswer user)).correct
           timestamp := now, feedback_text := ""
           audio_path := none, audio_base64 := none }] ∧
    (∃ resp ∈ (process_answer db fb tts now qid user email).2.responses,
      resp.id = db.nextResponseId ∧ resp.question_id = qid ∧
      resp.child_email = email ∧ resp.selected = normalizeAnswer user ∧
      resp.correct = (evaluate_answer (fetch_question db child.ano qid).answer
        (normalizeAnswer user)).correct ∧
      resp.timestamp = now) ∧
    ((process_answer db fb tts now qid user email).1.isOk = false →
      (process_answer db fb tts now qid user email).2 =
        (save_response db now qid email
          (evaluate_answer (fetch_question db child.ano qid).answer
            (normalizeAnswer user))).1) := by
  refine ⟨rfl, process_answer_keeps_saved_row db fb tts now qid user email child hc, ?_⟩
  simp only [process_answer, hc]
  cases hfb : fb (buildAvaliacao child.nome child.ano
      (evaluate_answer (fetch_question db child.ano qid).answer
        (normalizeAnswer user))) with
  | error e => intro _; rfl
  | ok ft =>
      cases htts : tts ft with
      | error e => simp [generate_audio_node, htts]
      | ok b64 =>
          simp only [generate_audio_node, htts]
          intro h
          exact Bool.noConfusion h

/-- C4, witness: concrete store and collaborators (a raising synthesizer,
exercising the no-rollback branch). -/
theorem c4_answer_committed_before_later_stages_witness :
    findChild exampleDB "ana@x" = some exampleChild ∧
    ((save_response exampleDB 1000 1 "ana@x"
        (evaluate_answer (fetch_question exampleDB exampleChild.ano 1).answer
          (normalizeAnswer "b"))).1.responses =
      exampleDB.responses ++
        [{ id := exampleDB.nextResponseId, question_id := 1, child_email := "ana@x"
           selected := normalizeAnswer "b"
           correct := (evaluate_answer (fetch_question exampleDB exampleChild.ano 1).answer
             (normalizeAnswer "b")).correct
           timestamp := 1000, feedback_text := ""
           audio_path := none, audio_base64 := none }] ∧
    (∃ resp ∈ (process_answer exampleDB (fun _ => .ok "Muito bem!")
        (fun _ => .error ()) 1000 1 "b" "ana@x").2.responses,
      resp.id = exampleDB.nextResponseId ∧ resp.question_id = 1 ∧
      resp.child_email = "ana@x" ∧ resp.selected = normalizeAnswer "b" ∧
      resp.correct = (evaluate_answer (fetch_question exampleDB exampleChild.ano 1).answer
        (normalizeAnswer "b")).correct ∧
      resp.timestamp = 1000) ∧
    ((process_answer exampleDB (fun _ => .ok "Muito bem!")
        (fun _ => .error ()) 1000 1 "b" "ana@x").1.isOk = false →
      (process_answer exampleDB (fun _ => .ok "Muito bem!")
          (fun _ => .error ()) 1000 1 "b" "ana@x").2 =
        (save_response exampleDB 1000 1 "ana@x"
          (evaluate_answer (fetch_question exampleDB exampleChild.ano 1).answer
            (normalizeAnswer "b"))).1)) :=
  ⟨by decide,
    c4_answer_committed_before_later_stages exampleDB (fun _ => .ok "Muito bem!")
      (fun _ => .error ()) 1000 1 "b" "ana@x" exampleChild (by decide)⟩

/-! ## C8 -/

/-- C8.  When no stored question matches the submitted identifier, the fetch
stage substitutes the fallback content for the learner's grade (keeping the
requested identifier), evaluation proceeds against the fallback's correct
label, and — with the remaining collaborators succeeding — the submission
completes and returns a result. -/
theorem c8_missing_question_fallback (db : DB) (ftext b64 : String)
    (now : Int) (qid : Nat) (user email : String) (child : Child)
    (hc : findChild db email = some child)
    (hq : findQuestion db qid = none) :
    fetch_question db child.ano qid =
      { id := qid, question := (fallbackBase child.ano).question
        options := (fallbackBase child.ano).options
        answer := (fallbackBase child.ano).answer } ∧
    (process_answer db (fun _ => .ok ftext) (fun _ => .ok b64)
        now qid user email).1 =
      .ok { correta := (evaluate_answer (fallbackBase child.ano).answer
              (normalizeAnswer user)).correct
            feedback := ftext, audio := b64, saved := true } := by
  have hfq : fetch_question db child.ano qid =
      { id := qid, question := (fallbackBase child.ano).question
        options := (fallbackBase child.ano).options
        answer := (fallbackBase child.ano).answer } := by
    simp only [fetch_question, hq]
  refine ⟨hfq, ?_⟩
  simp only [process_answer, hc, hfq, generate_audio_node]

/-- C8, witness: submitting against an identifier absent from the store
(id 99) completes, evaluated against the grade-2 fallback. -/
theorem c8_missing_question_fallback_witness :
    findChild exampleDB "ana@x" = some exampleChild ∧
    findQuestion exampleDB 99 = none ∧
    (fetch_question exampleDB exampleChild.ano 99 =
      { id := 99, question := (fallbackBase exampleChild.ano).question
        options := (fallbackBase exampleChild.ano).options
        answer := (fallbackBase exampleChild.ano).answer } ∧
    (process_answer exampleDB (fun _ => .ok "Boa!") (fun _ => .ok "QUJD")
        1000 99 "2" "ana@x").1 =
      .ok { correta := (evaluate_answer (fallbackBase exampleChild.ano).answer
              (normalizeAnswer "2")).correct
            feedback := "Boa!", audio := "QUJD", saved := true }) :=
  ⟨by decide, by decide,
    c8_missing_question_fallback exampleDB "Boa!" "QUJD" 1000 99 "2" "ana@x"
      exampleChild (by decide) (by decide)⟩

/-! ## C10 -/

/-- C10.  The `selected` label in the evaluation result and in the persisted
Answer row is the submitted answer uppercased and whitespace-stripped, and
the raw input is not preserved anywhere: two submissions whose inputs agree
after normalization produce identical results and identical stores. -/
theorem c10_selected_is_normalized_input (db : DB)
    (fb tts : String → Except Unit String) (now : Int) (qid : Nat)
    (user user' email : String) (child : Child)
    (hc : findChild db email = some child)
    (hnorm : normalizeAnswer user = normalizeAnswer user') :
    (evaluate_answer (fetch_question db child.ano qid).answer
        (normalizeAnswer user)).selected = pyStrip (pyUpper user) ∧
    (∃ resp ∈ (process_answer db fb tts now qid user email).2.responses,
      resp.id = db.nextResponseId ∧ resp.selected = pyStrip (pyUpper user)) ∧
    process_answer db fb tts now qid user email =
      process_answer db fb tts now qid user' email := by
  refine ⟨rfl, ?_, ?_⟩
  · obtain ⟨resp, hmem, hid, -, -, hsel, -, -⟩ :=
      process_answer_keeps_saved_row db fb tts now qid user email child hc
    exact ⟨resp, hmem, hid, hsel⟩
  · unfold process_answer
    rw [hnorm]

/-- C10, witness: the raw submissions `" b "` and `"B"` normalize alike and
are indistinguishable in the result and the store; the persisted `selected`
is `"B"`. -/
theorem c10_selected_is_normalized_input_witness :
    findChild exampleDB "ana@x" = some exampleChild ∧
    normalizeAnswer " b " = normalizeAnswer "B" ∧
    ((evaluate_answer (fetch_question exampleDB exampleChild.ano 1).answer
        (normalizeAnswer " b ")).selected = pyStrip (pyUpper " b ") ∧
    (∃ resp ∈ (process_answer exampleDB (fun _ => .ok "Boa!") (fun _ => .ok "QUJD")
        1000 1 " b " "ana@x").2.responses,
      resp.id = exampleDB.nextResponseId ∧ resp.selected = pyStrip (pyUpper " b ")) ∧
    process_answer exampleDB (fun _ => .ok "Boa!") (fun _ => .ok "QUJD")
        1000 1 " b " "ana@x" =
      process_answer exampleDB (fun _ => .ok "Boa!") (fun _ => .ok "QUJD")
        1000 1 "B" "ana@x") :=
  ⟨by decide, by decide,
    c10_selected_is_normalized_input exampleDB (fun _ => .ok "Boa!")
      (fun _ => .ok "QUJD") 1000 1 " b " "B" "ana@x" exampleChild
      (by decide) (by decide)⟩

/-! ## Report fixtures -/

/-- A store with five answers for the learner: four correct, three of the
five within the last two weeks of evaluation time `2000000` (boundary
`2000000 - 14*86400 = 790400`). -/
def reportDB : DB :=
  { children := [exampleChild], questions := [exampleQuestion]
    responses :=
      [ { id := 1, question_id := 1, child_email := "ana@x", selected := "B"
          correct := true, timestamp := 100, feedback_text := ""
          audio_path := none, audio_base64 := none }
      , { id := 2, question_id := 1, child_email := "ana@x", selected := "B"
          correct := true, timestamp := 1000, feedback_text := ""
          audio_path := none, audio_base64 := none }
      , { id := 3, question_id := 1, child_email := "ana@x", selected := "B"
          correct := true, timestamp := 800000, feedback_text := ""
          audio_path := none, audio_base64 := none }
      , { id := 4, question_id := 1, child_email := "ana@x", selected := "B"
          correct := true, timestamp := 1500000, feedback_text := ""
          audio_path := none, audio_base64 := none }
      , { id := 5, question_id := 1, child_email := "ana@x", selected := "A"
          correct := false, timestamp := 1900000, feedback_text := ""
          audio_path := none, audio_base64 := none } ]
    nextQuestionId := 2, nextResponseId := 6 }

/-- The report `generate_report reportDB 2000000 (.ok "insight") "ana@x"`
produces: 4/5 correct overall (80.0%, i.e. 800 tenths), 2/3 correct in the
recent window (66.7%). -/
def exampleReport : FullReport :=
  { child_name := "Ana", child_grade := 2
    performance_summary :=
      { total_activities := 5, correct_answers := 4, incorrect_answers := 1
        accuracy_percentage := 800, recent_accuracy := 667 }
    temporal_analysis :=
      { total_recent_activities := 3, total_older_activities := 2
        performance_trend := "needs_attention" }
    improvement_trend := -133
    pedagogical_insights := "insight"
    recommendations :=
      [ "Excelente desempenho! Continue estimulando com atividades diversificadas."
      , "Considere introduzir desafios um pouco mais avançados."
      , "Elogie o progresso e mantenha a motivação alta." ] }

/-! ## C5 -/

/-- C5.  With an empty answer history the report is the minimal one
(`total = 0`, explanatory message, no statistics).  With a non-empty history
the overall accuracy is `round((correct/total)*100, 1)` (in tenths of a
percent), the recent partition is exactly the answers whose timestamp lies
within the last `14 * 86400` seconds of evaluation time, and recent accuracy
is the same formula over that partition, `0` when it is empty. -/
theorem c5_report_statistics (db : DB) (now : Int) (ins : Except Unit String)
    (email : String) (child : Child) (hc : findChild db email = some child) :
    (db.responses.filter (fun r => r.child_email == email) = [] →
      generate_report db now ins email =
        .emptyHistory child.nome child.ano 0
          "Ainda não há atividades realizadas para gerar relatório.") ∧
    (db.responses.filter (fun r => r.child_email == email) ≠ [] →
      ∃ rep, generate_report db now ins email = .report rep ∧
        (let history := db.responses.filter (fun r => r.child_email == email)
         let recent := history.filter (fun a => now - 14 * 86400 ≤ a.timestamp)
         rep.performance_summary.total_activities = history.length ∧
         rep.performance_summary.correct_answers =
           (history.filter (fun a => a.correct)).length ∧
         rep.performance_summary.accuracy_percentage =
           accuracyTenths (history.filter (fun a => a.correct)).length history.length ∧
         (∀ a ∈ history, a ∈ recent ↔ now - 14 * 86400 ≤ a.timestamp) ∧
         rep.temporal_analysis.total_recent_activities = recent.length ∧
         rep.temporal_analysis.total_older_activities =
           (history.filter (fun a => a.timestamp < now - 14 * 86400)).length ∧
         rep.performance_summary.recent_accuracy =
           (if recent = [] then 0
            else accuracyTenths (recent.filter (fun a => a.correct)).length
              recent.length))) := by
  constructor
  · intro h
    simp only [generate_report, hc, h]
    rfl
  · intro h
    simp only [generate_report, hc]
    have hne : (db.responses.filter (fun r => r.child_email == email)).isEmpty = false := by
      simpa [List.isEmpty_iff] using h
    rw [if_neg (by simp [hne])]
    refine ⟨_, rfl, rfl, rfl, rfl, ?_, rfl, rfl, ?_⟩
    · intro a ha
      obtain ⟨h1, h2⟩ := List.mem_filter.mp ha
      simp [List.mem_filter, twoWeeksSecs, h1, beq_iff_eq.mp h2]
    · by_cases hre :
        (db.responses.filter (fun r => r.child_email == email)).filter
          (fun a => now - 14 * 86400 ≤ a.timestamp) = []
      · simp [twoWeeksSecs, hre]
      · simp [twoWeeksSecs, hre, List.isEmpty_iff]

/-- C5, witness: the concrete five-answer store exercises the non-empty
branch (and the empty branch vacuously). -/
theorem c5_report_statistics_witness :
    findChild reportDB "ana@x" = some exampleChild ∧
    ((reportDB.responses.filter (fun r => r.child_email == "ana@x") = [] →
      generate_report reportDB 2000000 (.ok "insight") "ana@x" =
        .emptyHistory exampleChild.nome exampleChild.ano 0
          "Ainda não há atividades realizadas para gerar relatório.") ∧
    (reportDB.responses.filter (fun r => r.child_email == "ana@x") ≠ [] →
      ∃ rep, generate_report reportDB 2000000 (.ok "insight") "ana@x" = .report rep ∧
        (let history := reportDB.responses.filter (fun r => r.child_email == "ana@x")
         let recent := history.filter (fun a => (2000000 : Int) - 14 * 86400 ≤ a.timestamp)
         rep.performance_summary.total_activities = history.length ∧
         rep.performance_summary.correct_answers =
           (history.filter (fun a => a.correct)).length ∧
         rep.performance_summary.accuracy_percentage =
           accuracyTenths (history.filter (fun a => a.correct)).length history.length ∧
         (∀ a ∈ history, a ∈ recent ↔ (2000000 : Int) - 14 * 86400 ≤ a.timestamp) ∧
         rep.temporal_analysis.total_recent_activities = recent.length ∧
         rep.temporal_analysis.total_older_activities =
           (history.filter (fun a => a.timestamp < (2000000 : Int) - 14 * 86400)).length ∧
         rep.performance_summary.recent_accuracy =
           (if recent = [] then 0
            else accuracyTenths (recent.filter (fun a => a.correct)).length
              recent.length)))) :=
  ⟨by decide,
    c5_report_statistics reportDB 2000000 (.ok "insight") "ana@x" exampleChild
      (by decide)⟩

/-! ## C6 -/

/-- C6.  On every full (non-empty-history) report the performance trend is
`"improvement"` exactly when recent accuracy exceeds overall accuracy,
`"needs_attention"` exactly when it is below, and `"stable"` exactly when
they are equal; and whenever an older partition exists the improvement
signal equals recent accuracy minus overall accuracy. -/
theorem c6_trend_classification (db : DB) (now : Int) (ins : Except Unit String)
    (email : String) (rep : FullReport)
    (hr : generate_report db now ins email = .report rep) :
    (rep.temporal_analysis.performance_trend = "improvement" ↔
      rep.performance_summary.accuracy_percentage <
        rep.performance_summary.recent_accuracy) ∧
    (rep.temporal_analysis.performance_trend = "needs_attention" ↔
      rep.performance_summary.recent_accuracy <
        rep.performance_summary.accuracy_percentage) ∧
    (rep.temporal_analysis.performance_trend = "stable" ↔
      rep.performance_summary.recent_accuracy =
        rep.performance_summary.accuracy_percentage) ∧
    (0 < rep.temporal_analysis.total_older_activities →
      rep.improvement_trend =
        (rep.performance_summary.recent_accuracy : Int) -
          (rep.performance_summary.accuracy_percentage : Int)) := by
  cases hfc : findChild db email with
  | none =>
      simp only [generate_report, hfc] at hr
      exact ReportResult.noConfusion hr
  | some child =>
      simp only [generate_report, hfc] at hr
      split at hr
      · exact ReportResult.noConfusion hr
      · rw [ReportResult.report.injEq] at hr
        subst hr
        refine ⟨?_, ?_, ?_, ?_⟩ <;> simp only []
        · split_ifs with h1 h2 <;> simp_all <;> omega
        · split_ifs with h1 h2 <;> simp_all <;> omega
        · split_ifs with h1 h2 <;> simp_all <;> omega
        · intro hold
          rw [if_pos hold]

/-- C6, witness: the five-answer store yields recent accuracy 66.7 below the
overall 80.0, so the trend is `"needs_attention"` and the improvement signal
is `667 - 800 = -133` tenths. -/
theorem c6_trend_classification_witness :
    generate_report reportDB 2000000 (.ok "insight") "ana@x" =
      .report exampleReport ∧
    ((exampleReport.temporal_analysis.performance_trend = "improvement" ↔
      exampleReport.performance_summary.accuracy_percentage <
        exampleReport.performance_summary.recent_accuracy) ∧
    (exampleReport.temporal_analysis.performance_trend = "needs_attention" ↔
      exampleReport.performance_summary.recent_accuracy <
        exampleReport.performance_summary.accuracy_percentage) ∧
    (exampleReport.temporal_analysis.performance_trend = "stable" ↔
      exampleReport.performance_summary.recent_accuracy =
        exampleReport.performance_summary.accuracy_percentage) ∧
    (0 < exampleReport.temporal_analysis.total_older_activities →
      exampleReport.improvement_trend =
        (exampleReport.performance_summary.recent_accuracy : Int) -
          (exampleReport.performance_summary.accuracy_percentage : Int))) :=
  ⟨by decide,
    c6_trend_classification reportDB 2000000 (.ok "insight") "ana@x"
      exampleReport (by decide)⟩

/-! ## C9 -/

/-- C9.  On every full report the recommendation list is the tier list for
the overall accuracy: the "excellent" texts exactly when accuracy ≥ 80.0%
(800 tenths), the "satisfactory" texts exactly when 60.0% ≤ accuracy <
80.0%, and the "needs attention" texts exactly when accuracy < 60.0%; both
thresholds are inclusive on the lower bound. -/
theorem c9_recommendation_tiers (db : DB) (now : Int) (ins : Except Unit String)
    (email : String) (rep : FullReport)
    (hr : generate_report db now ins email = .report rep) :
    rep.recommendations =
      generate_recommendations rep.performance_summary.accuracy_percentage ∧
    (800 ≤ rep.performance_summary.accuracy_percentage →
      rep.recommendations =
        [ "Excelente desempenho! Continue estimulando com atividades diversificadas."
        , "Considere introduzir desafios um pouco mais avançados."
        , "Elogie o progresso e mantenha a motivação alta." ]) ∧
    (600 ≤ rep.performance_summary.accuracy_percentage ∧
        rep.performance_summary.accuracy_percentage < 800 →
      rep.recommendations =
        [ "Desempenho satisfatório. Continue praticando regularmente."
        , "Foque em reforçar conceitos com mais dificuldade."
        , "Considere sessões de estudo mais frequentes e curtas." ]) ∧
    (rep.performance_summary.accuracy_percentage < 600 →
      rep.recommendations =
        [ "Recomenda-se atenção especial ao desenvolvimento da alfabetização."
        , "Considere atividades lúdicas complementares em casa."
        , "Pode ser útil conversar com o professor para alinhamento pedagógico." ]) := by
  cases hfc : findChild db email with
  | none =>
      simp only [generate_report, hfc] at hr
      exact ReportResult.noConfusion hr
  | some child =>
      simp only [generate_report, hfc] at hr
      split at hr
      · exact ReportResult.noConfusion hr
      · rw [ReportResult.report.injEq] at hr
        subst hr
        refine ⟨rfl, ?_, ?_, ?_⟩ <;> simp only [generate_recommendations]
        · intro h; rw [if_pos h]
        · intro h
          rw [if_neg (by omega), if_pos h.1]
        · intro h
          rw [if_neg (by omega), if_neg (by omega)]

/-- C9, witness: 4 correct of 5 answers gives overall accuracy exactly 80.0%
(800 tenths), which lands — lower bound inclusive — in the "excellent"
tier. -/
theorem c9_recommendation_tiers_witness :
    generate_report reportDB 2000000 (.ok "insight") "ana@x" =
      .report exampleReport ∧
    accuracyTenths 4 5 = 800 ∧
    exampleReport.performance_summary.accuracy_percentage = 800 ∧
    (exampleReport.recommendations =
      generate_recommendations exampleReport.performance_summary.accuracy_percentage ∧
    (800 ≤ exampleReport.performance_summary.accuracy_percentage →
      exampleReport.recommendations =
        [ "Excelente desempenho! Continue estimulando com atividades diversificadas."
        , "Considere introduzir desafios um pouco mais avançados."
        , "Elogie o progresso e mantenha a motivação alta." ]) ∧
    (600 ≤ exampleReport.performance_summary.accuracy_percentage ∧
        exampleReport.performance_summary.accuracy_percentage < 800 →
      exampleReport.recommendations =
        [ "Desempenho satisfatório. Continue praticando regularmente."
        , "Foque em reforçar conceitos com mais dificuldade."
        , "Considere sessões de estudo mais frequentes e curtas." ]) ∧
    (exampleReport.performance_summary.accuracy_percentage < 600 →
      exampleReport.recommendations =
        [ "Recomenda-se atenção especial ao desenvolvimento da alfabetização."
        , "Considere atividades lúdicas complementares em casa."
        , "Pode ser útil conversar com o professor para alinhamento pedagógico." ])) :=
  ⟨by decide, by decide, by decide,
    c9_recommendation_tiers reportDB 2000000 (.ok "insight") "ana@x"
      exampleReport (by decide)⟩
